import Mathlib

/-!
Verification of the `motor_characterization` system-identification core
(`include/system_identification.hpp`, `src/system_identification.cpp`).

Shallow embedding conventions:
* C++ `double` values are modelled as `ℚ`.  The only place where a
  non-finite `double` (NaN / ±∞) is observable in the verified code is the
  output of Eigen's least-squares solve, which `identify` checks with
  `beta.allFinite()`; solver outputs are therefore modelled by `DVal`,
  a rational tagged as finite or non-finite.
* The Eigen call `X.colPivHouseholderQr().solve(y)` is irrational
  (Householder reflections take square roots), so the solver is an
  explicit parameter `solve : Solver` of `identify`; every theorem about
  `identify` holds for an arbitrary solver.
* `Eigen::MatrixXd` is a `List (List ℚ)` of rows, `Eigen::VectorXd` a
  `List ℚ`; the row-building loops become `List.map` over the stored
  samples, in insertion order.
-/

/-- The C++ `struct DataPoint`: one measurement record
`{voltage, velocity, acceleration, timestamp}`. -/
structure DataPoint where
  voltage : ℚ
  velocity : ℚ
  acceleration : ℚ
  timestamp : ℚ
deriving DecidableEq, Repr

instance : Inhabited DataPoint := ⟨⟨0, 0, 0, 0⟩⟩

/-- The C++ `struct FeedforwardConstants \x7b double kS; double kV; double kA; \x7d`. -/
structure FeedforwardConstants where
  kS : ℚ
  kV : ℚ
  kA : ℚ
deriving DecidableEq, Repr

/-- The method `FeedforwardConstants::calculate`:
`kS * (velocity > 0 ? 1.0 : -1.0) + kV * velocity + kA * acceleration`. -/
def FeedforwardConstants.calculate (c : FeedforwardConstants)
    (velocity acceleration : ℚ) : ℚ :=
  c.kS * (if velocity > 0 then 1 else -1) + c.kV * velocity + c.kA * acceleration

/-- State of a `SystemIdentification` object: the sample store, the fitted
constants, the stored R², and the `isIdentified` flag. -/
structure SystemIdentification where
  dataPoints : List DataPoint
  constants : FeedforwardConstants
  rSquared : ℚ
  isIdentified : Bool
deriving DecidableEq, Repr

/-- The constructor `SystemIdentification() : rSquared(0.0), isIdentified(false)`
(with `constants` default-constructed to `(0, 0, 0)` and an empty store). -/
def SystemIdentification.init : SystemIdentification :=
  { dataPoints := [], constants := ⟨0, 0, 0⟩, rSquared := 0, isIdentified := false }

/-- The method `SystemIdentification::addDataPoint`: appends the sample and resets
`isIdentified` to false. -/
def SystemIdentification.addDataPoint (sys : SystemIdentification)
    (voltage velocity acceleration timestamp : ℚ) : SystemIdentification :=
  { sys with
    dataPoints := sys.dataPoints ++ [⟨voltage, velocity, acceleration, timestamp⟩]
    isIdentified := false }

/-- The method `SystemIdentification::clearData`: clears the store and resets
`isIdentified`; `constants` and `rSquared` are left as they were. -/
def SystemIdentification.clearData (sys : SystemIdentification) : SystemIdentification :=
  { sys with dataPoints := [], isIdentified := false }

/-- The accessor `SystemIdentification::getDataPointCount`. -/
def SystemIdentification.getDataPointCount (sys : SystemIdentification) : Nat :=
  sys.dataPoints.length

/-- The accessor `SystemIdentification::getConstants`. -/
def SystemIdentification.getConstants (sys : SystemIdentification) : FeedforwardConstants :=
  sys.constants

/-- The accessor `SystemIdentification::getRSquared`. -/
def SystemIdentification.getRSquared (sys : SystemIdentification) : ℚ :=
  sys.rSquared

/-- The accessor `SystemIdentification::isSystemIdentified`. -/
def SystemIdentification.isSystemIdentified (sys : SystemIdentification) : Bool :=
  sys.isIdentified

/-- The method `SystemIdentification::predictVoltage`:
`if (!isIdentified) return 0.0; return constants.calculate(velocity, acceleration);`. -/
def SystemIdentification.predictVoltage (sys : SystemIdentification)
    (velocity acceleration : ℚ) : ℚ :=
  if !sys.isIdentified then 0 else sys.constants.calculate velocity acceleration

/-- The method `SystemIdentification::calculateError`:
`actualVoltage - predictVoltage(velocity, acceleration)`. -/
def SystemIdentification.calculateError (sys : SystemIdentification)
    (actualVoltage velocity acceleration : ℚ) : ℚ :=
  actualVoltage - sys.predictVoltage velocity acceleration

/-- The row that the loop body of `SystemIdentification::buildDesignMatrix`
writes for one sample: optionally `velocity > 0 ? 1.0 : -1.0`, then always
`velocity`, then optionally `acceleration`, with `col` advancing left to
right. -/
def designRow (includeStaticFriction includeAcceleration : Bool)
    (p : DataPoint) : List ℚ :=
  (if includeStaticFriction then [if p.velocity > 0 then (1 : ℚ) else -1] else [])
    ++ [p.velocity]
    ++ (if includeAcceleration then [p.acceleration] else [])

/-- The method `SystemIdentification::buildDesignMatrix`: a `numPoints × numFeatures`
matrix with row `i` built from `dataPoints[i]`. -/
def SystemIdentification.buildDesignMatrix (sys : SystemIdentification)
    (includeStaticFriction includeAcceleration : Bool) : List (List ℚ) :=
  sys.dataPoints.map (designRow includeStaticFriction includeAcceleration)

/-- The method `SystemIdentification::buildResponseVector`: `y(i) = dataPoints[i].voltage`. -/
def SystemIdentification.buildResponseVector (sys : SystemIdentification) : List ℚ :=
  sys.dataPoints.map (fun p => p.voltage)

/-- The accessor `SystemIdentification::getDesignMatrix` simply forwards to
`buildDesignMatrix`, with no guard of its own. -/
def SystemIdentification.getDesignMatrix (sys : SystemIdentification)
    (includeStaticFriction includeAcceleration : Bool) : List (List ℚ) :=
  sys.buildDesignMatrix includeStaticFriction includeAcceleration

/-- The accessor `SystemIdentification::getResponseVector` forwards to `buildResponseVector`. -/
def SystemIdentification.getResponseVector (sys : SystemIdentification) : List ℚ :=
  sys.buildResponseVector

/-- The method `SystemIdentification::calculateRSquared`: returns `0.0` on mismatched or
empty vectors; otherwise `1 - RSS/TSS`, with `0.0` when `TSS < 1e-10`. -/
def SystemIdentification.calculateRSquared (_sys : SystemIdentification)
    (predicted actual : List ℚ) : ℚ :=
  if predicted.length ≠ actual.length ∨ predicted.length = 0 then 0
  else
    let mean := actual.sum / (actual.length : ℚ)
    let tss := (actual.map (fun a => (a - mean) ^ 2)).sum
    let rss := (List.zipWith (fun a p => (a - p) ^ 2) actual predicted).sum
    if tss < 1 / 10000000000 then 0 else 1 - rss / tss

/-- A solver output entry: a `double` that is either finite (with its value)
or non-finite (NaN or ±∞), as tested by `Eigen`'s `allFinite()`. -/
inductive DVal where
  | fin : ℚ → DVal
  | nonfin : DVal
deriving DecidableEq, Repr

/-- Whether a solver output entry is finite. -/
def DVal.isFinite : DVal → Bool
  | .fin _ => true
  | .nonfin => false

/-- The rational value of a finite solver output entry (junk `0` on a
non-finite entry, which `identify` never reads thanks to the
`allFinite` gate). -/
def DVal.toRat : DVal → ℚ
  | .fin q => q
  | .nonfin => 0

/-- The Eigen check `beta.allFinite()`. -/
def allFinite (beta : List DVal) : Bool :=
  beta.all DVal.isFinite

/-- The least-squares solver `X.colPivHouseholderQr().solve(y)` as an
abstract parameter: any function from the design matrix and response vector
to a coefficient vector whose entries may be non-finite. -/
def Solver : Type :=
  List (List ℚ) → List ℚ → List DVal

/-- Dot product of two rows, zero-padding the shorter one (matches Eigen on
equal lengths, which is the only case `identify` produces). -/
def dotQ (xs ys : List ℚ) : ℚ :=
  (List.zipWith (fun a b => a * b) xs ys).sum

/-- Matrix-vector product `X * beta`. -/
def matVecMul (x : List (List ℚ)) (beta : List ℚ) : List ℚ :=
  x.map (fun row => dotQ row beta)

/-- The method `SystemIdentification::identify`, parameterized by the solver.  Returns
the C++ boolean result together with the post-call object state:
guard `dataPoints.size() < 3`; build `X` and `y`; solve; reject a
non-finite `beta`; extract `kS`/`kV`/`kA` with `idx` advancing over the
active terms (inactive terms set to exactly `0.0`); compute `predicted` and
R²; set `isIdentified`.  The C++ `try/catch` has no counterpart: no
modelled operation throws. -/
def SystemIdentification.identify (solve : Solver) (sys : SystemIdentification)
    (includeStaticFriction includeAcceleration : Bool) :
    Bool × SystemIdentification :=
  if sys.dataPoints.length < 3 then
    (false, sys)
  else
    let x := sys.buildDesignMatrix includeStaticFriction includeAcceleration
    let y := sys.buildResponseVector
    let beta := solve x y
    if !allFinite beta then
      (false, sys)
    else
      let b := beta.map DVal.toRat
      let kS : ℚ := if includeStaticFriction then b.getD 0 0 else 0
      let kVidx : Nat := if includeStaticFriction then 1 else 0
      let kV : ℚ := b.getD kVidx 0
      let kA : ℚ := if includeAcceleration then b.getD (kVidx + 1) 0 else 0
      let predicted := matVecMul x b
      let r2 := sys.calculateRSquared predicted y
      (true,
        { sys with
          constants := ⟨kS, kV, kA⟩
          rSquared := r2
          isIdentified := true })

/-- Left-pads a digit string with `'0'` to width 6, as
`std::setprecision(6)` renders the fractional part. -/
def pad6 (s : String) : String :=
  String.mk (List.replicate (6 - s.length) '0') ++ s

/-- Fixed-point rendering of a value with `std::fixed << std::setprecision(6)`:
six digits after the decimal point, rounding to the nearest multiple of
`10⁻⁶`. -/
def renderFixed6 (q : ℚ) : String :=
  let scaled : ℤ := round (q * 1000000)
  (if scaled < 0 then "-" else "")
    ++ toString (scaled.natAbs / 1000000) ++ "."
    ++ pad6 (toString (scaled.natAbs % 1000000))

/-- The CSV header line written by `SystemIdentification::exportToCSV`. -/
def csvHeader : String := "Timestamp,Voltage,Velocity,Acceleration"

/-- The data row `exportToCSV` writes for one sample: timestamp, voltage,
velocity, acceleration, comma-separated, each at fixed precision 6. -/
def csvRow (p : DataPoint) : String :=
  renderFixed6 p.timestamp ++ "," ++ renderFixed6 p.voltage ++ ","
    ++ renderFixed6 p.velocity ++ "," ++ renderFixed6 p.acceleration

/-- The method `SystemIdentification::exportToCSV`, modelled as the text written to the
(successfully opened) file: the header line, then one row per sample in
insertion order, every line terminated by `\n`. -/
def SystemIdentification.exportToCSV (sys : SystemIdentification) : String :=
  sys.dataPoints.foldl (fun acc p => acc ++ (csvRow p ++ "\n")) (csvHeader ++ "\n")

/-- The lines of the exported CSV file: the header, then one row per sample. -/
def csvLines (sys : SystemIdentification) : List String :=
  csvHeader :: sys.dataPoints.map csvRow

/-- The states of a `SystemIdentification` object reachable through its
public mutating interface, starting from the constructor: `addDataPoint`,
`clearData`, and `identify` with any solver and any term flags. -/
inductive Reachable : SystemIdentification → Prop where
  | init : Reachable SystemIdentification.init
  | add (sys : SystemIdentification) (voltage velocity acceleration timestamp : ℚ) :
      Reachable sys → Reachable (sys.addDataPoint voltage velocity acceleration timestamp)
  | clear (sys : SystemIdentification) :
      Reachable sys → Reachable sys.clearData
  | ident (sys : SystemIdentification) (solve : Solver)
      (includeStaticFriction includeAcceleration : Bool) :
      Reachable sys →
      Reachable (sys.identify solve includeStaticFriction includeAcceleration).2

/-- A solver that always returns the empty coefficient vector; used to
instantiate theorems at concrete inputs. -/
def emptySolver : Solver := fun _ _ => []

/-- A solver returning the fixed finite coefficient vector `(2, 1/10, 1/1000)`. -/
def finSolver : Solver := fun _ _ => [DVal.fin 2, DVal.fin (1 / 10), DVal.fin (1 / 1000)]

/-- A solver that succeeds on two-column systems and returns a non-finite
vector on three-column systems — the shape Eigen can produce on a
pathological third column. -/
def mixedSolver : Solver := fun x _ =>
  if (x.getD 0 []).length = 3 then [DVal.nonfin, DVal.nonfin, DVal.nonfin]
  else [DVal.fin 2, DVal.fin (1 / 10)]

/-- A three-sample store (the minimum `identify` accepts). -/
def exSys3 : SystemIdentification :=
  ((SystemIdentification.init.addDataPoint 3 10 1 0).addDataPoint 5 20 2 1).addDataPoint 7 30 3 2

/-- A two-sample store (below the `identify` minimum). -/
def exSys2 : SystemIdentification :=
  (SystemIdentification.init.addDataPoint 3 10 1 0).addDataPoint 5 20 2 1

/-- The state after a successful `identify(true, false)` on `exSys3` with
`mixedSolver`: three samples, `isIdentified = true`. -/
def exSysIdentified : SystemIdentification :=
  (exSys3.identify mixedSolver true false).2

/-- Case analysis on `identify`: either it fails and returns the state
untouched, or the store had at least 3 samples and it returns `true` with
the same sample store and `isIdentified` set. -/
theorem identify_cases (solve : Solver) (sys : SystemIdentification)
    (isf ia : Bool) :
    sys.identify solve isf ia = (false, sys) ∨
    (3 ≤ sys.dataPoints.length ∧
      (sys.identify solve isf ia).1 = true ∧
      (sys.identify solve isf ia).2.dataPoints = sys.dataPoints ∧
      (sys.identify solve isf ia).2.isIdentified = true) := by
  unfold SystemIdentification.identify
  by_cases h3 : sys.dataPoints.length < 3
  · left
    simp [h3]
  · cases hfin : allFinite (solve (sys.buildDesignMatrix isf ia) sys.buildResponseVector)
    · left
      simp [h3, hfin]
    · right
      refine ⟨by omega, ?_, ?_, ?_⟩ <;> simp [h3, hfin]

/-- C1.  With fewer than 3 stored samples, `identify` (for every solver and
every combination of `includeStaticFriction` / `includeAcceleration`)
returns `false` and leaves the whole state — in particular `isIdentified` —
unchanged; moreover in every state reachable through the public interface,
fewer than 3 samples implies `isIdentified() = false`. -/
theorem identify_min_data_invariant :
    (∀ (solve : Solver) (sys : SystemIdentification) (isf ia : Bool),
      sys.dataPoints.length < 3 → sys.identify solve isf ia = (false, sys)) ∧
    (∀ sys : SystemIdentification, Reachable sys →
      sys.dataPoints.length < 3 → sys.isIdentified = false) := by
  constructor
  · intro solve sys isf ia h3
    unfold SystemIdentification.identify
    simp [h3]
  · intro sys hreach
    induction hreach with
    | init => intro _; rfl
    | add s v vel acc t _ _ => intro _; rfl
    | clear s _ _ => intro _; rfl
    | ident s solve isf ia _ ih =>
        intro hlen
        rcases identify_cases solve s isf ia with hfail | ⟨h3, _, hdp, _⟩
        · rw [hfail] at hlen ⊢
          exact ih hlen
        · rw [hdp] at hlen
          omega

/-- Instantiation of `identify_min_data_invariant` at a concrete two-sample
store. -/
theorem identify_min_data_invariant_witness :
    exSys2.identify emptySolver true true = (false, exSys2) ∧
    exSys2.isIdentified = false :=
  ⟨identify_min_data_invariant.1 emptySolver exSys2 true true (by decide),
   identify_min_data_invariant.2 exSys2
     (Reachable.add _ 5 20 2 1 (Reachable.add _ 3 10 1 0 Reachable.init)) (by decide)⟩

/-- C4.  `isIdentified` starts `false` at construction; `addDataPoint` and
`clearData` each force it back to `false`; and from an unidentified state
it can only become `true` through an `identify` call that returned
`true`. -/
theorem isIdentified_lifecycle :
    SystemIdentification.init.isIdentified = false ∧
    (∀ (sys : SystemIdentification) (voltage velocity acceleration timestamp : ℚ),
      (sys.addDataPoint voltage velocity acceleration timestamp).isIdentified = false) ∧
    (∀ sys : SystemIdentification, sys.clearData.isIdentified = false) ∧
    (∀ (solve : Solver) (sys : SystemIdentification) (isf ia : Bool),
      sys.isIdentified = false →
      (sys.identify solve isf ia).2.isIdentified = true →
      (sys.identify solve isf ia).1 = true) := by
  refine ⟨rfl, fun _ _ _ _ _ => rfl, fun _ => rfl, ?_⟩
  intro solve sys isf ia hid hpost
  rcases identify_cases solve sys isf ia with hfail | ⟨_, htrue, _, _⟩
  · rw [hfail] at hpost
    rw [hid] at hpost
    exact absurd hpost (by simp)
  · exact htrue

/-- Instantiation of `isIdentified_lifecycle`: after a successful `identify`
on `exSys3`, appending a sample (or clearing) makes `isIdentified` false
again, and the successful transition indeed returned `true`. -/
theorem isIdentified_lifecycle_witness :
    (exSysIdentified.addDataPoint 1 2 3 4).isIdentified = false ∧
    exSysIdentified.clearData.isIdentified = false ∧
    (exSys3.identify mixedSolver true false).1 = true :=
  ⟨isIdentified_lifecycle.2.1 exSysIdentified 1 2 3 4,
   isIdentified_lifecycle.2.2.1 exSysIdentified,
   isIdentified_lifecycle.2.2.2 mixedSolver exSys3 true false (by decide) rfl⟩

/-- C10.  Whenever `identify` returns `false`, the observable state —
`getConstants()`, `getRSquared()`, `isSystemIdentified()` and the stored
sample sequence — is exactly what it was before the call. -/
theorem identify_false_state_unchanged (solve : Solver)
    (sys s' : SystemIdentification) (isf ia : Bool)
    (h : sys.identify solve isf ia = (false, s')) :
    s'.getConstants = sys.getConstants ∧
    s'.getRSquared = sys.getRSquared ∧
    s'.isSystemIdentified = sys.isSystemIdentified ∧
    s'.dataPoints = sys.dataPoints := by
  rcases identify_cases solve sys isf ia with hfail | ⟨_, htrue, _, _⟩
  · rw [h] at hfail
    have : s' = sys := ((Prod.mk.injEq _ _ _ _).mp hfail).2
    subst this
    exact ⟨rfl, rfl, rfl, rfl⟩
  · rw [h] at htrue
    exact absurd htrue (by simp)

/-- Instantiation of `identify_false_state_unchanged` at a concrete failing
call (two-sample store). -/
theorem identify_false_state_unchanged_witness :
    exSys2.getConstants = exSys2.getConstants ∧
    exSys2.getRSquared = exSys2.getRSquared ∧
    exSys2.isSystemIdentified = exSys2.isSystemIdentified ∧
    exSys2.dataPoints = exSys2.dataPoints :=
  identify_false_state_unchanged emptySolver exSys2 exSys2 true true rfl

/-- C2.  In the identified state, `predictVoltage` evaluates the fitted
model `kS * sign(velocity) + kV * velocity + kA * acceleration` with
`sign(velocity) = 1` exactly when `velocity > 0` and `-1` otherwise (so at
zero velocity and zero acceleration it returns `-kS` exactly); in the
unidentified state it returns `0` on every input. -/
theorem predictVoltage_spec :
    (∀ (sys : SystemIdentification) (velocity acceleration : ℚ),
      sys.isIdentified = true →
      sys.predictVoltage velocity acceleration =
        sys.getConstants.kS * (if velocity > 0 then 1 else -1)
          + sys.getConstants.kV * velocity
          + sys.getConstants.kA * acceleration) ∧
    (∀ sys : SystemIdentification, sys.isIdentified = true →
      sys.predictVoltage 0 0 = -sys.getConstants.kS) ∧
    (∀ (sys : SystemIdentification) (velocity acceleration : ℚ),
      sys.isIdentified = false →
      sys.predictVoltage velocity acceleration = 0) := by
  refine ⟨?_, ?_, ?_⟩
  · intro sys velocity acceleration hid
    simp [SystemIdentification.predictVoltage, hid, FeedforwardConstants.calculate,
      SystemIdentification.getConstants]
  · intro sys hid
    simp [SystemIdentification.predictVoltage, hid, FeedforwardConstants.calculate,
      SystemIdentification.getConstants]
  · intro sys velocity acceleration hid
    simp [SystemIdentification.predictVoltage, hid]

/-- Instantiation of `predictVoltage_spec` at the concrete identified state
`exSysIdentified` (where `kS = 2`) and the concrete unidentified state
`exSys3`. -/
theorem predictVoltage_spec_witness :
    exSysIdentified.predictVoltage 0 0 = -exSysIdentified.getConstants.kS ∧
    exSys3.predictVoltage 5 7 = 0 :=
  ⟨predictVoltage_spec.2.1 exSysIdentified rfl,
   predictVoltage_spec.2.2 exSys3 5 7 rfl⟩

/-- Counterexample to the claim that a non-finite solve result sends the
model back to Unidentified: starting from `exSysIdentified` (a state in
which a previous `identify(true, false)` succeeded, so `isIdentified` is
`true`), a call `identify(true, true)` whose solve yields a non-finite
coefficient vector returns `false` — yet `isIdentified()` still returns
`true` afterwards, because the failing branch leaves the flag untouched. -/
theorem identify_nonfinite_keeps_identified_cex :
    exSysIdentified.isIdentified = true ∧
    allFinite (mixedSolver (exSysIdentified.buildDesignMatrix true true)
      exSysIdentified.buildResponseVector) = false ∧
    (exSysIdentified.identify mixedSolver true true).1 = false ∧
    (exSysIdentified.identify mixedSolver true true).2.isIdentified = true :=
  ⟨rfl, rfl, rfl, rfl⟩

/-- C3 (amended).  Whenever the least-squares solve inside `identify`
produces a coefficient vector containing a non-finite value, `identify`
returns `false` and leaves the entire state unchanged; `isIdentified()`
afterwards reports whatever it reported before the call (it is not forced
to `false`). -/
theorem identify_nonfinite_returns_false :
    ∀ (solve : Solver) (sys : SystemIdentification) (isf ia : Bool),
      3 ≤ sys.dataPoints.length →
      allFinite (solve (sys.buildDesignMatrix isf ia) sys.buildResponseVector) = false →
      sys.identify solve isf ia = (false, sys) := by
  intro solve sys isf ia h3 hfin
  unfold SystemIdentification.identify
  have hlt : ¬ sys.dataPoints.length < 3 := by omega
  simp [hlt, hfin]

/-- Instantiation of `identify_nonfinite_returns_false` at the concrete
identified state and the solver that goes non-finite on three columns. -/
theorem identify_nonfinite_returns_false_witness :
    exSysIdentified.identify mixedSolver true true = (false, exSysIdentified) :=
  identify_nonfinite_returns_false mixedSolver exSysIdentified true true
    (by decide) rfl

/-- C6.  On every successful `identify`, the constants are split out of the
solved coefficient vector in the fixed order
`[staticFriction?, velocity, acceleration?]`, and each inactive term is set
to exactly `0`: with `includeStaticFriction = false` the resulting
`getConstants().kS` is `0`, and with `includeAcceleration = false` the
resulting `getConstants().kA` is `0`, regardless of previously fitted
values. -/
theorem identify_constants_extraction :
    ∀ (solve : Solver) (sys s' : SystemIdentification) (isf ia : Bool),
      sys.identify solve isf ia = (true, s') →
      s'.getConstants.kS =
        (if isf then
          ((solve (sys.buildDesignMatrix isf ia) sys.buildResponseVector).map
            DVal.toRat).getD 0 0
        else 0) ∧
      s'.getConstants.kV =
        ((solve (sys.buildDesignMatrix isf ia) sys.buildResponseVector).map
          DVal.toRat).getD (if isf then 1 else 0) 0 ∧
      s'.getConstants.kA =
        (if ia then
          ((solve (sys.buildDesignMatrix isf ia) sys.buildResponseVector).map
            DVal.toRat).getD ((if isf then 1 else 0) + 1) 0
        else 0) := by
  intro solve sys s' isf ia h
  unfold SystemIdentification.identify at h
  by_cases h3 : sys.dataPoints.length < 3
  · simp [h3] at h
  · cases hfin : allFinite (solve (sys.buildDesignMatrix isf ia) sys.buildResponseVector)
    · simp [h3, hfin] at h
    · simp only [h3, hfin, if_false, Bool.not_true, if_neg, Bool.false_eq_true,
        not_false_eq_true] at h
      have hs : s' = { sys with
          constants := ⟨if isf then ((solve (sys.buildDesignMatrix isf ia)
              sys.buildResponseVector).map DVal.toRat).getD 0 0 else 0,
            ((solve (sys.buildDesignMatrix isf ia)
              sys.buildResponseVector).map DVal.toRat).getD (if isf then 1 else 0) 0,
            if ia then ((solve (sys.buildDesignMatrix isf ia)
              sys.buildResponseVector).map DVal.toRat).getD ((if isf then 1 else 0) + 1) 0
            else 0⟩
          rSquared := sys.calculateRSquared
            (matVecMul (sys.buildDesignMatrix isf ia)
              ((solve (sys.buildDesignMatrix isf ia)
                sys.buildResponseVector).map DVal.toRat))
            sys.buildResponseVector
          isIdentified := true } := by
        have := ((Prod.mk.injEq _ _ _ _).mp h).2
        exact this.symm
      subst hs
      exact ⟨rfl, rfl, rfl⟩

/-- Instantiation of `identify_constants_extraction`: a velocity-only fit
(`identify(false, false)`) with a solver returning `(2, 1/10, 1/1000)`
yields `kS = 0`, `kV = 2` (the first solved coefficient), `kA = 0`. -/
theorem identify_constants_extraction_witness :
    (exSys3.identify finSolver false false).2.getConstants.kS = 0 ∧
    (exSys3.identify finSolver false false).2.getConstants.kV = 2 ∧
    (exSys3.identify finSolver false false).2.getConstants.kA = 0 := by
  obtain ⟨h1, h2, h3⟩ := identify_constants_extraction finSolver exSys3
    (exSys3.identify finSolver false false).2 false false rfl
  refine ⟨?_, ?_, ?_⟩
  · rw [h1]; rfl
  · rw [h2]; rfl
  · rw [h3]; rfl

/-- Indexing a mapped list below its length indexes the underlying list. -/
theorem getD_map_lt {α β : Type} (f : α → β) (d : α) (d' : β) :
    ∀ (l : List α) (i : Nat), i < l.length → (l.map f).getD i d' = f (l.getD i d)
  | _ :: _, 0, _ => rfl
  | _ :: l, i + 1, h => getD_map_lt f d d' l i (Nat.lt_of_succ_lt_succ h)

/-- C5.  The design matrix has one row per stored sample, in insertion
order; row `i` is, left to right: if `includeStaticFriction`, the sign of
sample `i`'s velocity (`1` exactly when it is `> 0`, `-1` otherwise,
including at exactly zero); then the raw velocity; then, if
`includeAcceleration`, the raw acceleration.  The response vector has one
entry per sample in the same order, holding the recorded voltage. -/
theorem buildDesignMatrix_rows :
    ∀ (sys : SystemIdentification) (isf ia : Bool),
      (sys.buildDesignMatrix isf ia).length = sys.dataPoints.length ∧
      sys.buildResponseVector.length = sys.dataPoints.length ∧
      ∀ i, i < sys.dataPoints.length →
        (sys.buildDesignMatrix isf ia).getD i [] =
          (if isf then
            [if (sys.dataPoints.getD i default).velocity > 0 then (1 : ℚ) else -1]
          else [])
            ++ [(sys.dataPoints.getD i default).velocity]
            ++ (if ia then [(sys.dataPoints.getD i default).acceleration] else []) ∧
        sys.buildResponseVector.getD i 0 =
          (sys.dataPoints.getD i default).voltage := by
  intro sys isf ia
  refine ⟨by simp [SystemIdentification.buildDesignMatrix],
    by simp [SystemIdentification.buildResponseVector], ?_⟩
  intro i hi
  constructor
  · rw [SystemIdentification.buildDesignMatrix,
      getD_map_lt (designRow isf ia) default [] sys.dataPoints i hi]
    rfl
  · rw [SystemIdentification.buildResponseVector,
      getD_map_lt (fun p => p.voltage) default 0 sys.dataPoints i hi]

/-- Instantiation of `buildDesignMatrix_rows` at the first sample of the
concrete store `exSys3` (voltage 3, velocity 10, acceleration 1): the row
is `[sign, velocity, acceleration] = [1, 10, 1]`, the response entry is the
voltage `3`. -/
theorem buildDesignMatrix_rows_witness :
    (exSys3.buildDesignMatrix true true).getD 0 [] = [1, 10, 1] ∧
    exSys3.buildResponseVector.getD 0 0 = 3 := by
  obtain ⟨hrow, hy⟩ := (buildDesignMatrix_rows exSys3 true true).2.2 0 (by decide)
  constructor
  · rw [hrow]; rfl
  · rw [hy]; rfl

/-- Counterexample to the claim that the design-matrix builder rejects a
store of fewer than 3 samples: on the concrete two-sample store `exSys2`
the builder returns a fully formed 2-row matrix (not an empty/invalid
result) together with a 2-entry response vector. -/
theorem buildDesignMatrix_no_min_count_cex :
    exSys2.dataPoints.length = 2 ∧
    exSys2.buildDesignMatrix true true ≠ [] ∧
    exSys2.buildDesignMatrix true true = [[1, 10, 1], [1, 20, 2]] ∧
    exSys2.buildResponseVector = [3, 5] := by
  refine ⟨rfl, ?_, by decide, by decide⟩
  intro h
  exact absurd (congrArg List.length h) (by decide)

/-- C8 (amended).  `buildDesignMatrix` (and the public `getDesignMatrix`)
performs no minimum-count check: for every store — also below 3 samples —
the row count of `X` equals the sample count.  The `count < 3` rejection
lives in `identify`, which returns `false` with the state untouched before
any matrix is used. -/
theorem designMatrix_rowcount_identify_guard :
    ∀ (sys : SystemIdentification) (isf ia : Bool),
      (sys.buildDesignMatrix isf ia).length = sys.dataPoints.length ∧
      (sys.getDesignMatrix isf ia).length = sys.dataPoints.length ∧
      (sys.dataPoints.length < 3 →
        ∀ solve : Solver, sys.identify solve isf ia = (false, sys)) := by
  intro sys isf ia
  refine ⟨by simp [SystemIdentification.buildDesignMatrix],
    by simp [SystemIdentification.getDesignMatrix, SystemIdentification.buildDesignMatrix],
    ?_⟩
  intro h3 solve
  unfold SystemIdentification.identify
  simp [h3]

/-- Instantiation of `designMatrix_rowcount_identify_guard` at the concrete
two-sample store. -/
theorem designMatrix_rowcount_identify_guard_witness :
    (exSys2.buildDesignMatrix true true).length = exSys2.dataPoints.length ∧
    exSys2.identify emptySolver true true = (false, exSys2) :=
  ⟨(designMatrix_rowcount_identify_guard exSys2 true true).1,
   (designMatrix_rowcount_identify_guard exSys2 true true).2.2 (by decide) emptySolver⟩

/-- Sum of a mapped list written as a sum over indices. -/
theorem list_map_sum_eq_range (f : ℚ → ℚ) :
    ∀ l : List ℚ, (l.map f).sum = ∑ i in Finset.range l.length, f (l.getD i 0) := by
  intro l
  induction l with
  | nil => simp
  | cons a l ih =>
      simp only [List.map_cons, List.sum_cons, List.length_cons]
      rw [Finset.sum_range_succ']
      simp only [List.getD_cons_succ, List.getD_cons_zero]
      rw [← ih]
      ring

/-- Sum of a zipped list written as a sum over indices, for equal-length
lists. -/
theorem list_zipWith_sum_eq_range (g : ℚ → ℚ → ℚ) :
    ∀ (l1 l2 : List ℚ), l1.length = l2.length →
      (List.zipWith g l1 l2).sum =
        ∑ i in Finset.range l1.length, g (l1.getD i 0) (l2.getD i 0)
  | [], [], _ => by simp
  | [], _ :: _, h => by simp at h
  | _ :: _, [], h => by simp at h
  | a :: l1, b :: l2, h => by
      simp only [List.zipWith_cons_cons, List.sum_cons, List.length_cons]
      rw [Finset.sum_range_succ']
      simp only [List.getD_cons_succ, List.getD_cons_zero]
      rw [list_zipWith_sum_eq_range g l1 l2 (by simpa using h)]
      ring

/-- C7.  `calculateRSquared` returns `0` on mismatched-length or empty
inputs; otherwise, with `TSS = Σᵢ (actualᵢ - mean(actual))²` and
`RSS = Σᵢ (actualᵢ - predictedᵢ)²`, it returns `0` when `TSS < 10⁻¹⁰` and
`1 - RSS/TSS` otherwise. -/
theorem calculateRSquared_spec :
    ∀ (sys : SystemIdentification) (predicted actual : List ℚ),
      (predicted.length ≠ actual.length ∨ predicted.length = 0 →
        sys.calculateRSquared predicted actual = 0) ∧
      (∀ tss rss : ℚ,
        predicted.length = actual.length →
        predicted.length ≠ 0 →
        tss = ∑ i in Finset.range actual.length,
          (actual.getD i 0 - actual.sum / (actual.length : ℚ)) ^ 2 →
        rss = ∑ i in Finset.range actual.length,
          (actual.getD i 0 - predicted.getD i 0) ^ 2 →
        sys.calculateRSquared predicted actual =
          if tss < 1 / 10000000000 then 0 else 1 - rss / tss) := by
  intro sys predicted actual
  constructor
  · intro h
    unfold SystemIdentification.calculateRSquared
    rw [if_pos h]
  · intro tss rss hlen hne htss hrss
    have hcond : ¬(predicted.length ≠ actual.length ∨ predicted.length = 0) := by
      push_neg
      exact ⟨hlen, hne⟩
    unfold SystemIdentification.calculateRSquared
    rw [if_neg hcond]
    subst htss hrss
    rw [← list_map_sum_eq_range (fun a => (a - actual.sum / (actual.length : ℚ)) ^ 2) actual,
      ← list_zipWith_sum_eq_range (fun a p => (a - p) ^ 2) actual predicted hlen.symm]

/-- Instantiation of `calculateRSquared_spec` at `predicted = [1, 2, 4]`,
`actual = [1, 2, 3]`: the mean is 2, `TSS = 2`, `RSS = 1`, and the result
is `1 - 1/2 = 1/2`. -/
theorem calculateRSquared_spec_witness :
    SystemIdentification.init.calculateRSquared [1, 2, 4] [1, 2, 3] = 1 / 2 := by
  have h := (calculateRSquared_spec SystemIdentification.init [1, 2, 4] [1, 2, 3]).2
    2 1 rfl (by decide)
    (by simp [Finset.sum_range_succ]; norm_num)
    (by simp [Finset.sum_range_succ]; norm_num)
  rw [h]
  norm_num

/-- Concatenation of a list of strings, left to right. -/
def concatStrings (l : List String) : String :=
  l.foldl (fun acc x => acc ++ x) ""

/-- A string foldl over append factors its initial accumulator out front. -/
theorem string_foldl_append :
    ∀ (l : List String) (s : String),
      l.foldl (fun acc x => acc ++ x) s = s ++ l.foldl (fun acc x => acc ++ x) ""
  | [], s => (String.append_empty s).symm
  | x :: l, s => by
      simp only [List.foldl_cons, String.empty_append]
      rw [string_foldl_append l (s ++ x), string_foldl_append l x,
        String.append_assoc]

/-- Pulling one string off the front of a concatenation. -/
theorem concatStrings_cons (x : String) (l : List String) :
    concatStrings (x :: l) = x ++ concatStrings l := by
  unfold concatStrings
  simp only [List.foldl_cons, String.empty_append]
  exact string_foldl_append l x

/-- C9.  The text written by a successful `exportToCSV` is exactly the
concatenation of `N + 1` newline-terminated lines for a store of `N`
samples: the header `Timestamp,Voltage,Velocity,Acceleration` first, then
one row per sample in insertion order, whose four comma-separated fields
are the sample's timestamp, voltage, velocity and acceleration — in that
column order — each rendered at fixed precision 6. -/
theorem exportToCSV_lines :
    ∀ sys : SystemIdentification,
      sys.exportToCSV = concatStrings ((csvLines sys).map (fun l => l ++ "\n")) ∧
      (csvLines sys).length = sys.dataPoints.length + 1 ∧
      (csvLines sys).getD 0 "" = "Timestamp,Voltage,Velocity,Acceleration" ∧
      ∀ i, i < sys.dataPoints.length →
        (csvLines sys).getD (i + 1) "" =
          renderFixed6 (sys.dataPoints.getD i default).timestamp ++ ","
            ++ renderFixed6 (sys.dataPoints.getD i default).voltage ++ ","
            ++ renderFixed6 (sys.dataPoints.getD i default).velocity ++ ","
            ++ renderFixed6 (sys.dataPoints.getD i default).acceleration := by
  intro sys
  refine ⟨?_, by simp [csvLines], rfl, ?_⟩
  · show sys.dataPoints.foldl (fun acc p => acc ++ (csvRow p ++ "\n")) (csvHeader ++ "\n") = _
    rw [show (csvLines sys).map (fun l => l ++ "\n")
        = (csvHeader ++ "\n") :: sys.dataPoints.map (fun p => csvRow p ++ "\n") by
      simp [csvLines, List.map_map, Function.comp]]
    rw [concatStrings_cons,
      ← List.foldl_map (fun p => csvRow p ++ "\n") (fun acc x => acc ++ x),
      string_foldl_append]
    rfl
  · intro i hi
    show (List.map csvRow sys.dataPoints).getD i "" = _
    rw [getD_map_lt csvRow default "" sys.dataPoints i hi]
    rfl

/-- Instantiation of `exportToCSV_lines` at the concrete two-sample store:
3 lines total, and the first data row renders sample 0 as
`timestamp,voltage,velocity,acceleration`. -/
theorem exportToCSV_lines_witness :
    (csvLines exSys2).length = exSys2.dataPoints.length + 1 ∧
    (csvLines exSys2).getD 1 "" = "0.000000,3.000000,10.000000,1.000000" := by
  refine ⟨(exportToCSV_lines exSys2).2.1, ?_⟩
  rw [(exportToCSV_lines exSys2).2.2.2 0 (by decide)]
  show renderFixed6 0 ++ "," ++ renderFixed6 3 ++ ","
      ++ renderFixed6 10 ++ "," ++ renderFixed6 1 = _
  unfold renderFixed6
  norm_num
  rfl
